import Mathlib

/-!
Verification of the willhook hook-lifecycle core (src/hook.rs, src/lib.rs).

The `hook::inner` module (InnerHook, setup_keyboard_hook, setup_mouse_hook,
the session slot and the shared event channel) is declared in src/hook.rs but
its source is not part of the sources; those pieces are modelled from the
spec, as marked in their doc comments. Stateful code is embedded by explicit
state passing over `GlobalState`; the outcome of OS hook registration is
abstracted by a boolean oracle `regOk`.
-/

/-- Press state carried by events (src/hook.rs, `enum KeyCode`). -/
inductive KeyCode where
  | Down
  | Up
deriving DecidableEq, Repr

/-- The two supported hook categories (spec §3, HookCategory). -/
inductive HookCategory where
  | keyboard
  | mouse
deriving DecidableEq, Repr

/-- Modelled from the spec: a ListenerToken stands for one installed OS hook
plus its owning background thread (spec §3); the `hook::inner` module whose
`InnerHook` values play this role is not among the sources. Only the category
it was registered for matters to the lifecycle logic. -/
structure ListenerToken where
  category : HookCategory
deriving DecidableEq, Repr

/-- Handle owning the listeners of one session (src/hook.rs, `struct Hook`):
an optional keyboard listener and an optional mouse listener. -/
structure Hook where
  _keyboard_hook : Option ListenerToken
  _mouse_hook : Option ListenerToken
deriving DecidableEq, Repr

/-- Signals of a failed non-blocking receive (`std::sync::mpsc::TryRecvError`):
`Empty` when the queue currently has nothing, `Disconnected` (the Closed
signal) when no producer can ever enqueue again. -/
inductive TryRecvError where
  | Empty
  | Disconnected
deriving DecidableEq, Repr

/-- Modelled from the spec: the process-wide mutable state of the missing
`hook::inner` module — the single SessionSlot occupancy flag (spec §3,
invariant 1: one boolean, not one per category) and the shared EventChannel
FIFO, which is lazily created once and never cleared or recreated
(spec §3, invariant 3). -/
structure GlobalState where
  occupied : Bool
  channel : List KeyCode
deriving DecidableEq, Repr

/-- Modelled from the spec: Session Coordinator `try_acquire` (spec §4.1) —
atomically transitions the slot from unoccupied to occupied and returns true,
or returns false without side effects if already occupied. -/
def GlobalState.try_acquire (st : GlobalState) : Bool × GlobalState :=
  if st.occupied then (false, st) else (true, { st with occupied := true })

/-- Modelled from the spec: Session Coordinator `release` (spec §4.1) —
transitions occupied to unoccupied. -/
def GlobalState.release (st : GlobalState) : GlobalState :=
  { st with occupied := false }

/-- Modelled from the spec: a listener callback translates the raw OS
notification and enqueues it at the tail of the shared FIFO channel
(spec §4.2). -/
def GlobalState.enqueue (st : GlobalState) (e : KeyCode) : GlobalState :=
  { st with channel := st.channel ++ [e] }

/-- Modelled from the spec: `setup_keyboard_hook` of the missing `hook::inner`
module — registers the keyboard OS hook on a fresh listener thread; if
registration fails no ListenerToken is produced (spec §4.2). The OS outcome is
abstracted by the oracle `regOk`. -/
def setup_keyboard_hook (regOk : HookCategory → Bool) : Option ListenerToken :=
  if regOk HookCategory.keyboard then
    some { category := HookCategory.keyboard }
  else
    none

/-- Modelled from the spec: `setup_mouse_hook` of the missing `hook::inner`
module, the mouse counterpart of `setup_keyboard_hook` (spec §4.2). -/
def setup_mouse_hook (regOk : HookCategory → Bool) : Option ListenerToken :=
  if regOk HookCategory.mouse then
    some { category := HookCategory.mouse }
  else
    none

/-- Modelled from the spec: `InnerHook::try_recv` of the missing `hook::inner`
module — a non-blocking pop from the shared process-wide channel (spec §4.3).
The channel is never destroyed and its producer side lives for the whole
process, so the Closed (`Disconnected`) signal is never produced; an empty
queue yields the `Empty` signal. -/
def InnerHook.try_recv (st : GlobalState) :
    Except TryRecvError KeyCode × GlobalState :=
  match st.channel with
  | [] => (Except.error TryRecvError.Empty, st)
  | e :: rest => (Except.ok e, { st with channel := rest })

/-- `Hook::try_recv` (src/hook.rs line 62): delegates to the shared
`InnerHook` channel, ignoring which handle is polling. -/
def Hook.try_recv (_self : Hook) (st : GlobalState) :
    Except TryRecvError KeyCode × GlobalState :=
  InnerHook.try_recv st

/-- Modelled from the spec: releasing (dropping) a Hook handle stops and joins
each owned listener, uninstalls its OS hook, then releases the coordinator
slot exactly once (spec §4.3, Destruction); the shared channel is left
untouched (spec §3, invariant 3). -/
def Hook.drop (_self : Hook) (st : GlobalState) : GlobalState :=
  GlobalState.release st

/-- Builder selecting which hook categories to request
(src/hook.rs, `struct HookBuilder`). -/
structure HookBuilder where
  mouse : Bool
  keyboard : Bool
deriving DecidableEq, Repr

/-- `HookBuilder::new` (src/hook.rs lines 133-138). -/
def HookBuilder.new : HookBuilder :=
  { mouse := false, keyboard := false }

/-- `HookBuilder::with_mouse` (src/hook.rs lines 141-144). -/
def HookBuilder.with_mouse (self : HookBuilder) : HookBuilder :=
  { self with mouse := true }

/-- `HookBuilder::with_keyboard` (src/hook.rs lines 147-150). -/
def HookBuilder.with_keyboard (self : HookBuilder) : HookBuilder :=
  { self with keyboard := true }

/-- `HookBuilder::build` (src/hook.rs lines 154-178). The empty-selection
check comes first and returns no handle without touching the session state.
Session-slot acquisition and per-category OS registration live inside the
missing `hook::inner` module and are modelled from the spec: the Coordinator
grants the single process-wide slot or denies the whole build (spec §2
control flow, §3 invariant 1); on a grant each requested category is
registered via its setup function, and if every requested category failed to
register the slot is released and no handle is returned
(spec §4.3; src/hook.rs lines 170-177). -/
def HookBuilder.build (self : HookBuilder) (regOk : HookCategory → Bool)
    (st : GlobalState) : Option Hook × GlobalState :=
  if !self.keyboard && !self.mouse then
    (none, st)
  else
    match st.try_acquire with
    | (false, st1) => (none, st1)
    | (true, st1) =>
      let kb_hook := if self.keyboard then setup_keyboard_hook regOk else none
      let m_hook := if self.mouse then setup_mouse_hook regOk else none
      if kb_hook.isNone && m_hook.isNone then
        (none, st1.release)
      else
        (some { _keyboard_hook := kb_hook, _mouse_hook := m_hook }, st1)

/-- `keyboard_hook` (src/lib.rs lines 57-59). -/
def keyboard_hook (regOk : HookCategory → Bool) (st : GlobalState) :
    Option Hook × GlobalState :=
  (HookBuilder.new.with_keyboard).build regOk st

/-- `mouse_hook` (src/lib.rs lines 62-64). -/
def mouse_hook (regOk : HookCategory → Bool) (st : GlobalState) :
    Option Hook × GlobalState :=
  (HookBuilder.new.with_mouse).build regOk st

/-- `willhook` (src/lib.rs lines 67-69). -/
def willhook (regOk : HookCategory → Bool) (st : GlobalState) :
    Option Hook × GlobalState :=
  ((HookBuilder.new.with_keyboard).with_mouse).build regOk st

/-- Repeatedly poll `Hook::try_recv`, collecting the received events in order
until an error signal is returned or the fuel runs out. -/
def Hook.recvAll (self : Hook) (st : GlobalState) : Nat → List KeyCode × GlobalState
  | 0 => ([], st)
  | Nat.succ n =>
    match self.try_recv st with
    | (Except.error _, st1) => ([], st1)
    | (Except.ok e, st1) =>
      let p := self.recvAll st1 n
      (e :: p.fst, p.snd)

/-- Registration oracle under which every category registers successfully. -/
def regAll : HookCategory → Bool := fun _ => true

/-- Registration oracle under which every category fails to register. -/
def regNone : HookCategory → Bool := fun _ => false

/-- Registration oracle under which only the keyboard category registers. -/
def regKbOnly : HookCategory → Bool := fun c =>
  match c with
  | HookCategory.keyboard => true
  | HookCategory.mouse => false

/-- Fresh process state: slot free, channel empty. -/
def st0 : GlobalState := { occupied := false, channel := [] }

/-- A handle owning only a mouse listener. -/
def hookM : Hook :=
  { _keyboard_hook := none, _mouse_hook := some { category := HookCategory.mouse } }

/-- A handle owning only a keyboard listener. -/
def hookK : Hook :=
  { _keyboard_hook := some { category := HookCategory.keyboard }, _mouse_hook := none }

/-- Closed-form characterisation of `HookBuilder.build`: with an empty
selection or an occupied slot the build denies and leaves the state alone;
otherwise the handle holds exactly the successfully registered categories,
the slot becoming occupied, unless every requested category failed, in which
case the slot is back to free and no handle is produced. -/
theorem build_eq (b : HookBuilder) (regOk : HookCategory → Bool) (st : GlobalState) :
    b.build regOk st =
      if !b.keyboard && !b.mouse then (none, st)
      else if st.occupied then (none, st)
      else if (b.keyboard && regOk HookCategory.keyboard)
           || (b.mouse && regOk HookCategory.mouse) then
        (some { _keyboard_hook :=
                  if b.keyboard && regOk HookCategory.keyboard then
                    some { category := HookCategory.keyboard }
                  else none,
                _mouse_hook :=
                  if b.mouse && regOk HookCategory.mouse then
                    some { category := HookCategory.mouse }
                  else none },
         { st with occupied := true })
      else (none, st) := by
  cases st with
  | mk occ ch =>
    cases b with
    | mk m k =>
      cases occ <;> cases m <;> cases k <;>
        cases hk : regOk HookCategory.keyboard <;>
        cases hm : regOk HookCategory.mouse <;>
          simp [HookBuilder.build, GlobalState.try_acquire, GlobalState.release,
                setup_keyboard_hook, setup_mouse_hook, hk, hm]

/-- Polling via `Hook.recvAll` with enough fuel returns exactly the channel
contents, in their queued order, whichever handle polls. -/
theorem recvAll_drains (h : Hook) :
    ∀ (c : List KeyCode) (occ : Bool) (fuel : Nat), c.length ≤ fuel →
      (h.recvAll { occupied := occ, channel := c } fuel).fst = c := by
  intro c
  induction c with
  | nil =>
    intro occ fuel _
    cases fuel with
    | zero => rfl
    | succ n => rfl
  | cons e rest ih =>
    intro occ fuel hf
    cases fuel with
    | zero => exact absurd hf (by simp)
    | succ n =>
      have hr : rest.length ≤ n := Nat.le_of_succ_le_succ (by simpa using hf)
      simp [Hook.recvAll, Hook.try_recv, InnerHook.try_recv, ih occ n hr]

/-- A build attempted while the session slot is occupied is denied and leaves
the state untouched. -/
theorem build_occupied_denies (b : HookBuilder) (regOk : HookCategory → Bool)
    (st : GlobalState) (hocc : st.occupied = true) :
    b.build regOk st = (none, st) := by
  rw [build_eq]
  split
  · rfl
  · simp [hocc]

/-- A build never touches the shared event channel. -/
theorem build_channel (b : HookBuilder) (regOk : HookCategory → Bool)
    (st : GlobalState) :
    ((b.build regOk st).snd).channel = st.channel := by
  rw [build_eq]
  split
  · rfl
  · split
    · rfl
    · split
      · rfl
      · rfl

/-- C1: while a successfully built Hook handle is alive, every further build
attempt — any builder, any non-empty or even disjoint category set, any
registration outcome — returns no handle: the single process-wide session
slot is occupied by the live session, regardless of how many categories it
requested. -/
theorem build_exclusive_while_alive
    (b b2 : HookBuilder) (regOk regOk2 : HookCategory → Bool) (st : GlobalState)
    (hsome : ((b.build regOk st).fst).isSome = true) :
    ((b.build regOk st).snd).occupied = true ∧
    (b2.build regOk2 (b.build regOk st).snd).fst = none := by
  have hocc : ((b.build regOk st).snd).occupied = true := by
    cases st with
    | mk occ ch =>
      cases b with
      | mk m k =>
        cases occ <;> cases m <;> cases k <;>
          cases hk : regOk HookCategory.keyboard <;>
          cases hm : regOk HookCategory.mouse <;>
          simp_all [HookBuilder.build, GlobalState.try_acquire,
                    GlobalState.release, setup_keyboard_hook, setup_mouse_hook]
  refine ⟨hocc, ?_⟩
  rw [build_occupied_denies b2 regOk2 _ hocc]

/-- Witness for C1: a mouse-only session is built successfully from a fresh
state; a keyboard-only build attempted while it is alive gets no handle. -/
theorem build_exclusive_while_alive_witness :
    (((HookBuilder.new.with_mouse).build regAll st0).fst).isSome = true ∧
    ((((HookBuilder.new.with_mouse).build regAll st0).snd).occupied = true ∧
     ((HookBuilder.new.with_keyboard).build regAll
        ((HookBuilder.new.with_mouse).build regAll st0).snd).fst = none) :=
  ⟨by decide,
   build_exclusive_while_alive (HookBuilder.new.with_mouse)
     (HookBuilder.new.with_keyboard) regAll regAll st0 (by decide)⟩

/-- C2: as soon as a handle's release has completed, the session slot is free
and a subsequent acquisition that can register at least one of its requested
categories succeeds immediately — no residual occupancy, no extra step. -/
theorem drop_frees_slot_immediately
    (h : Hook) (st : GlobalState) (b : HookBuilder) (regOk : HookCategory → Bool)
    (hreq : ((b.keyboard && regOk HookCategory.keyboard)
           || (b.mouse && regOk HookCategory.mouse)) = true) :
    (h.drop st).occupied = false ∧
    ((b.build regOk (h.drop st)).fst).isSome = true := by
  refine ⟨rfl, ?_⟩
  have hfree : (h.drop st).occupied = false := rfl
  rw [build_eq]
  cases hbk : b.keyboard <;> cases hbm : b.mouse <;>
    cases hk : regOk HookCategory.keyboard <;>
    cases hm : regOk HookCategory.mouse <;>
    simp_all

/-- Witness for C2: dropping a mouse-only handle from an occupied state frees
the slot, and a keyboard-only build right after it succeeds. -/
theorem drop_frees_slot_immediately_witness :
    ((((HookBuilder.new.with_keyboard).keyboard && regAll HookCategory.keyboard)
      || ((HookBuilder.new.with_keyboard).mouse && regAll HookCategory.mouse))
        = true) ∧
    ((hookM.drop { occupied := true, channel := [] }).occupied = false ∧
     (((HookBuilder.new.with_keyboard).build regAll
        (hookM.drop { occupied := true, channel := [] })).fst).isSome = true) :=
  ⟨by decide,
   drop_frees_slot_immediately hookM { occupied := true, channel := [] }
     (HookBuilder.new.with_keyboard) regAll (by decide)⟩

/-- C3: when at least one category is requested but every requested category
fails OS registration, the build returns no handle and hands back the state
it started from — the slot it briefly held is released before returning; and
any successfully built hook, anywhere, owns at least one listener. -/
theorem build_total_failure_no_handle
    (b : HookBuilder) (regOk : HookCategory → Bool) (st : GlobalState)
    (b2 : HookBuilder) (regOk2 : HookCategory → Bool) (st2 : GlobalState)
    (h2 : Hook)
    (hne : (b.keyboard || b.mouse) = true)
    (hkb : b.keyboard = true → regOk HookCategory.keyboard = false)
    (hmo : b.mouse = true → regOk HookCategory.mouse = false)
    (hbuild2 : (b2.build regOk2 st2).fst = some h2) :
    b.build regOk st = (none, st) ∧
    (h2._keyboard_hook.isSome || h2._mouse_hook.isSome) = true := by
  constructor
  · rw [build_eq]
    cases hbk : b.keyboard <;> cases hbm : b.mouse <;> simp_all
  · rw [build_eq] at hbuild2
    split at hbuild2
    · simp at hbuild2
    · split at hbuild2
      · simp at hbuild2
      · split at hbuild2
        · rename_i hcond
          simp only [Option.some.injEq] at hbuild2
          subst hbuild2
          cases hc1 : (b2.keyboard && regOk2 HookCategory.keyboard) <;>
            cases hc2 : (b2.mouse && regOk2 HookCategory.mouse) <;>
            simp_all
        · simp at hbuild2

/-- Witness for C3: requesting both categories under an oracle that fails
every registration yields no handle and returns the initial free state; a
successfully built mouse-only handle owns a listener. -/
theorem build_total_failure_no_handle_witness :
    (((HookBuilder.new.with_keyboard.with_mouse).keyboard
       || (HookBuilder.new.with_keyboard.with_mouse).mouse) = true) ∧
    (((HookBuilder.new.with_mouse).build regAll st0).fst = some hookM) ∧
    ((HookBuilder.new.with_keyboard.with_mouse).build regNone st0 = (none, st0) ∧
     (hookM._keyboard_hook.isSome || hookM._mouse_hook.isSome) = true) :=
  ⟨by decide, by decide,
   build_total_failure_no_handle (HookBuilder.new.with_keyboard.with_mouse)
     regNone st0 (HookBuilder.new.with_mouse) regAll st0 hookM
     (by decide) (by decide) (by decide) (by decide)⟩

/-- C4: whenever neither category has been selected, `build` returns no
handle and leaves the process state exactly as it was — no slot acquisition
and no registration is attempted. -/
theorem build_empty_selection_fails
    (b : HookBuilder) (regOk : HookCategory → Bool) (st : GlobalState)
    (hk : b.keyboard = false) (hm : b.mouse = false) :
    b.build regOk st = (none, st) := by
  simp [HookBuilder.build, hk, hm]

/-- Witness for C4: a fresh builder with no selections fails to build even
though the slot is free and every registration would succeed. -/
theorem build_empty_selection_fails_witness :
    (HookBuilder.new.keyboard = false ∧ HookBuilder.new.mouse = false) ∧
    HookBuilder.new.build regAll st0 = (none, st0) :=
  ⟨⟨rfl, rfl⟩, build_empty_selection_fails HookBuilder.new regAll st0 rfl rfl⟩

/-- C5: if the slot is free and at least one requested category registers,
the build returns a handle whose owned set is exactly the successfully
registered subset — each failed category's slot in the handle is `none`, and
no error is surfaced. -/
theorem build_partial_registration_degrades
    (b : HookBuilder) (regOk : HookCategory → Bool) (st : GlobalState)
    (hfree : st.occupied = false)
    (hsucc : ((b.keyboard && regOk HookCategory.keyboard)
            || (b.mouse && regOk HookCategory.mouse)) = true) :
    (b.build regOk st).fst = some
      { _keyboard_hook :=
          if b.keyboard && regOk HookCategory.keyboard then
            some { category := HookCategory.keyboard }
          else none,
        _mouse_hook :=
          if b.mouse && regOk HookCategory.mouse then
            some { category := HookCategory.mouse }
          else none } := by
  rw [build_eq]
  cases hbk : b.keyboard <;> cases hbm : b.mouse <;>
    cases hk : regOk HookCategory.keyboard <;>
    cases hm : regOk HookCategory.mouse <;>
    simp_all

/-- Witness for C5: both categories requested, only the keyboard registers —
the handle holds a keyboard listener and `none` for the mouse. -/
theorem build_partial_registration_degrades_witness :
    (st0.occupied = false ∧
     (((HookBuilder.new.with_keyboard.with_mouse).keyboard
        && regKbOnly HookCategory.keyboard)
      || ((HookBuilder.new.with_keyboard.with_mouse).mouse
        && regKbOnly HookCategory.mouse)) = true) ∧
    ((HookBuilder.new.with_keyboard.with_mouse).build regKbOnly st0).fst = some
      { _keyboard_hook :=
          if (HookBuilder.new.with_keyboard.with_mouse).keyboard
              && regKbOnly HookCategory.keyboard then
            some { category := HookCategory.keyboard }
          else none,
        _mouse_hook :=
          if (HookBuilder.new.with_keyboard.with_mouse).mouse
              && regKbOnly HookCategory.mouse then
            some { category := HookCategory.mouse }
          else none } :=
  ⟨⟨rfl, by decide⟩,
   build_partial_registration_degrades (HookBuilder.new.with_keyboard.with_mouse)
     regKbOnly st0 rfl (by decide)⟩

/-- C6: releasing a Hook handle leaves the shared event channel untouched —
every event queued before the release is still queued afterwards, and a
later, unrelated handle polling with `try_recv` receives exactly those
events in their original order. -/
theorem drop_preserves_channel_events
    (h h2 : Hook) (st : GlobalState) (fuel : Nat)
    (hfuel : st.channel.length ≤ fuel) :
    (h.drop st).channel = st.channel ∧
    (h2.recvAll (h.drop st) fuel).fst = st.channel := by
  refine ⟨rfl, ?_⟩
  have hdrop : h.drop st = { occupied := false, channel := st.channel } := rfl
  rw [hdrop]
  exact recvAll_drains h2 st.channel false fuel hfuel

/-- Witness for C6: a Down event queued before the release of a mouse-only
handle is still delivered, to a different keyboard-only handle, afterwards. -/
theorem drop_preserves_channel_events_witness :
    ({ occupied := true, channel := [KeyCode.Down] } : GlobalState).channel.length ≤ 2 ∧
    ((hookM.drop { occupied := true, channel := [KeyCode.Down] }).channel
        = [KeyCode.Down] ∧
     (hookK.recvAll
        (hookM.drop { occupied := true, channel := [KeyCode.Down] }) 2).fst
        = [KeyCode.Down]) :=
  ⟨by decide,
   drop_preserves_channel_events hookM hookK
     { occupied := true, channel := [KeyCode.Down] } 2 (by decide)⟩

/-- C7: a Down event enqueued by a listener before an Up event is observed by
successive `try_recv` polls strictly before it — draining the channel yields
the prior contents followed by Down and then Up, never reordered. -/
theorem down_then_up_received_in_order
    (h : Hook) (st : GlobalState) (fuel : Nat)
    (hfuel : st.channel.length + 2 ≤ fuel) :
    (h.recvAll ((st.enqueue KeyCode.Down).enqueue KeyCode.Up) fuel).fst
      = st.channel ++ [KeyCode.Down, KeyCode.Up] := by
  have hst : (st.enqueue KeyCode.Down).enqueue KeyCode.Up
      = { occupied := st.occupied,
          channel := st.channel ++ [KeyCode.Down, KeyCode.Up] } := by
    simp [GlobalState.enqueue]
  rw [hst]
  have hlen : (st.channel ++ [KeyCode.Down, KeyCode.Up]).length ≤ fuel := by
    simpa using hfuel
  exact recvAll_drains h _ st.occupied fuel hlen

/-- Witness for C7: from the fresh state, enqueuing Down then Up and draining
yields exactly the pair Down, Up in that order. -/
theorem down_then_up_received_in_order_witness :
    st0.channel.length + 2 ≤ 2 ∧
    (hookK.recvAll ((st0.enqueue KeyCode.Down).enqueue KeyCode.Up) 2).fst
      = st0.channel ++ [KeyCode.Down, KeyCode.Up] :=
  ⟨by decide, down_then_up_received_in_order hookK st0 2 (by decide)⟩

/-- C8: polling a newly built handle when no input event has been produced
returns the Empty signal — no event, no Closed signal, and the state is left
unchanged (no blocking is even expressible here: `try_recv` is a total
function of the state). -/
theorem try_recv_empty_on_fresh_handle
    (b : HookBuilder) (regOk : HookCategory → Bool) (st : GlobalState) (h : Hook)
    (hch : st.channel = [])
    (hbuild : (b.build regOk st).fst = some h) :
    h.try_recv (b.build regOk st).snd
      = (Except.error TryRecvError.Empty, (b.build regOk st).snd) := by
  have hc := build_channel b regOk st
  rw [hch] at hc
  cases hEq : (b.build regOk st).snd with
  | mk occ ch =>
    rw [hEq] at hc
    simp only at hc
    subst hc
    rfl

/-- Witness for C8: a mouse-only handle built from the fresh empty state
polls Empty. -/
theorem try_recv_empty_on_fresh_handle_witness :
    (st0.channel = [] ∧
     ((HookBuilder.new.with_mouse).build regAll st0).fst = some hookM) ∧
    hookM.try_recv ((HookBuilder.new.with_mouse).build regAll st0).snd
      = (Except.error TryRecvError.Empty,
         ((HookBuilder.new.with_mouse).build regAll st0).snd) :=
  ⟨⟨rfl, by decide⟩,
   try_recv_empty_on_fresh_handle (HookBuilder.new.with_mouse) regAll st0 hookM
     rfl (by decide)⟩

/-- C9: each convenience entry point equals the builder path with its fixed
category set — `keyboard_hook` is keyboard-only, `mouse_hook` is mouse-only,
and `willhook` selects keyboard then mouse, over the same build path. -/
theorem convenience_entry_points_equal_builder_path
    (regOk : HookCategory → Bool) (st : GlobalState) :
    keyboard_hook regOk st = (HookBuilder.new.with_keyboard).build regOk st ∧
    mouse_hook regOk st = (HookBuilder.new.with_mouse).build regOk st ∧
    willhook regOk st
      = ((HookBuilder.new.with_keyboard).with_mouse).build regOk st :=
  ⟨rfl, rfl, rfl⟩

/-- C10: the category setters are idempotent and commute, and the outcome of
`build` depends only on the selected category set — two builders with the
same flags build identically, whatever the order or multiplicity of the
setter calls that produced them. -/
theorem setters_idempotent_commute_build_extensional
    (b b2 : HookBuilder) (regOk : HookCategory → Bool) (st : GlobalState)
    (hk : b.keyboard = b2.keyboard) (hm : b.mouse = b2.mouse) :
    b.with_keyboard.with_keyboard = b.with_keyboard ∧
    b.with_mouse.with_mouse = b.with_mouse ∧
    b.with_keyboard.with_mouse = b.with_mouse.with_keyboard ∧
    b.build regOk st = b2.build regOk st := by
  have hbb : b = b2 := by
    cases b
    cases b2
    simp_all
  subst hbb
  exact ⟨rfl, rfl, rfl, rfl⟩

/-- Witness for C10: `with_mouse` from a fresh builder and the literal
mouse-only builder have equal flags and build identically; setter algebra
holds on that builder. -/
theorem setters_idempotent_commute_build_extensional_witness :
    ((HookBuilder.new.with_mouse).keyboard
        = ({ mouse := true, keyboard := false } : HookBuilder).keyboard ∧
     (HookBuilder.new.with_mouse).mouse
        = ({ mouse := true, keyboard := false } : HookBuilder).mouse) ∧
    ((HookBuilder.new.with_mouse).with_keyboard.with_keyboard
        = (HookBuilder.new.with_mouse).with_keyboard ∧
     (HookBuilder.new.with_mouse).with_mouse.with_mouse
        = (HookBuilder.new.with_mouse).with_mouse ∧
     (HookBuilder.new.with_mouse).with_keyboard.with_mouse
        = (HookBuilder.new.with_mouse).with_mouse.with_keyboard ∧
     (HookBuilder.new.with_mouse).build regAll st0
        = ({ mouse := true, keyboard := false } : HookBuilder).build regAll st0) :=
  ⟨⟨rfl, rfl⟩,
   setters_idempotent_commute_build_extensional (HookBuilder.new.with_mouse)
     { mouse := true, keyboard := false } regAll st0 rfl rfl⟩
